import Mathlib

/-!
Shallow embedding of the PrimecurePayrollApp frontend, a React single-page
payroll administration application.  Each definition mirrors one function or
piece of component state of the JavaScript source.  Effects (HTTP requests,
toasts, saved files, console logging) are made explicit as returned data, and
the outcomes of awaited HTTP calls are passed in as parameters.  JS numbers
that can be NaN are modelled as Option values (none models NaN); JSON object
keys that the source sets to undefined, and which the request serializer
therefore omits, are modelled as none.  Form fields hold the strings the
DOM inputs produce; numeric initial values in the source (such as 30) behave
identically to their decimal string forms under the JS parse functions, and
are modelled as those strings.
-/

namespace Payroll

/-- Longest leading run of decimal digit characters of a character list,
paired with the remainder. -/
def takeDigits : List Char → List Char × List Char
  | [] => ([], [])
  | c :: cs =>
    if c.isDigit then
      let p := takeDigits cs
      (c :: p.1, p.2)
    else ([], c :: cs)

/-- Strips one optional leading sign character, returning whether it was a
minus sign, and the remainder. -/
def stripSign : List Char → Bool × List Char
  | '-' :: cs => (true, cs)
  | '+' :: cs => (false, cs)
  | cs => (false, cs)

/-- Drops leading whitespace characters, as the JS number parsers do before
reading the literal.  Trailing characters are ignored by the prefix parse
anyway. -/
def dropLeadingWS : List Char → List Char
  | [] => []
  | c :: cs =>
    if c = ' ' ∨ c = '\t' ∨ c = '\n' ∨ c = '\r' then dropLeadingWS cs
    else c :: cs

/-- Value of a list of decimal digit characters. -/
def digitsToNat (ds : List Char) : Nat :=
  ds.foldl (fun acc c => acc * 10 + (c.toNat - 48)) 0

/-- Integer-part digit characters of a numeric string: whitespace is trimmed
and one sign stripped, as both JS parseInt and parseFloat do. -/
def intDigits (s : String) : List Char :=
  (takeDigits (stripSign (dropLeadingWS s.toList)).2).1

/-- Remainder of a numeric string after its integer-part digits. -/
def afterIntPart (s : String) : List Char :=
  (takeDigits (stripSign (dropLeadingWS s.toList)).2).2

/-- Fractional-part digit characters of a numeric string: the digits after a
decimal point that directly follows the integer part. -/
def fracDigits (s : String) : List Char :=
  match afterIntPart s with
  | '.' :: r => (takeDigits r).1
  | _ => []

/-- Whether the numeric string begins (after trimming) with a minus sign. -/
def isNegSign (s : String) : Bool :=
  (stripSign (dropLeadingWS s.toList)).1

/-- Model of JS parseInt on a form field value: the longest signed decimal
digit prefix; none models NaN (no digits at all).  Hexadecimal prefixes and
exponents never occur in the number-input values this application parses and
are not modelled. -/
def parseIntJS (s : String) : Option Int :=
  if (intDigits s).isEmpty then none
  else
    let n : Int := digitsToNat (intDigits s)
    some (if isNegSign s then -n else n)

/-- Model of JS parseFloat on a form field value: the longest signed decimal
literal prefix (integer digits with optional fractional digits); none models
NaN.  Exponents and the Infinity literal never occur in the number-input
values this application parses and are not modelled. -/
def parseFloatJS (s : String) : Option Rat :=
  if (intDigits s).isEmpty && (fracDigits s).isEmpty then none
  else
    let v : Rat :=
      (digitsToNat (intDigits s) : Rat) +
        (digitsToNat (fracDigits s) : Rat) / (10 : Rat) ^ (fracDigits s).length
    some (if isNegSign s then -v else v)

/-- JS truthiness fallback x || 0 applied to a parsed number: NaN and 0 are
the falsy numbers and both yield 0. -/
def jsNumOrZero (x : Option Rat) : Rat :=
  match x with
  | none => 0
  | some v => v

/-- JS truthiness fallback s || undefined applied to a string: the empty
string is the only falsy string and yields undefined (none), which the
request serializer omits from the payload. -/
def jsStrOrUndefined (s : String) : Option String :=
  if s = "" then none else some s

/-- JS truthiness fallback d || fallback applied to an optional server error
detail: an absent detail and an empty-string detail both fall back. -/
def jsDetailOr (d : Option String) (fallback : String) : String :=
  match d with
  | none => fallback
  | some v => if v = "" then fallback else v

/-- User-facing toast notification. -/
inductive Toast where
  | success (msg : String)
  | error (msg : String)
  deriving DecidableEq

/-- Outcome of an awaited HTTP mutation: ok, or an error whose optional
string models error.response.data.detail (none when the failure carries no
structured detail). -/
abbrev ApiOutcome := Except (Option String) Unit

/-- Salary components record exchanged with the backend. -/
structure SalaryComponents where
  basic : Rat
  house_rent_allowance : Rat
  transport_allowance : Rat
  fixed_allowance : Rat
  professional_tax : Rat
  deriving DecidableEq

/-- Employee record as fetched from the backend. -/
structure EmployeeRec where
  id : String
  employee_no : String
  name : String
  designation : String
  department : String
  work_location : String
  date_of_joining : String
  bank_account_no : String
  salary_components : SalaryComponents
  deriving DecidableEq

/-- Payslip record as fetched from the backend. -/
structure PayslipRec where
  id : String
  employee_id : String
  employee_no : String
  employee_name : String
  month : Nat
  year : Int
  paid_days : Rat
  lop_days : Rat
  net_payable : Rat
  deriving DecidableEq

/-- Draft of the payslip generate dialog (Payslips component formData). -/
structure PayslipFormData where
  employee_id : String
  month : String
  year : String
  paid_days : String
  lop_days : String
  home_collection_visit : String
  deriving DecidableEq

/-- Draft of the inline payslip edit row (Payslips component editFormData). -/
structure EditFormData where
  paid_days : String
  lop_days : String
  deriving DecidableEq

/-- State of the Payslips component. -/
structure PayslipsState where
  payslips : List PayslipRec
  employees : List EmployeeRec
  loading : Bool
  dialogOpen : Bool
  editingPayslip : Option String
  editFormData : EditFormData
  formData : PayslipFormData
  deriving DecidableEq

/-- Payload of the POST payslips/generate request built by the Payslips
handleSubmit: the formData spread, with the numeric fields overridden by
their parsed values. -/
structure GeneratePayload where
  employee_id : String
  month : Option Int
  year : Option Int
  paid_days : Option Int
  lop_days : Option Int
  home_collection_visit : Rat
  deriving DecidableEq

/-- Builds the generate payload exactly as Payslips handleSubmit does:
parseInt for month, year, paid_days and lop_days, and
parseFloat(...) || 0 for home_collection_visit. -/
def buildGeneratePayload (fd : PayslipFormData) : GeneratePayload :=
  { employee_id := fd.employee_id
    month := parseIntJS fd.month
    year := parseIntJS fd.year
    paid_days := parseIntJS fd.paid_days
    lop_days := parseIntJS fd.lop_days
    home_collection_visit := jsNumOrZero (parseFloatJS fd.home_collection_visit) }

/-- Default payslip draft as produced by resetForm; the year defaults to the
current year rendered as a string. -/
def resetPayslipForm (currentYear : Int) : PayslipFormData :=
  { employee_id := ""
    month := ""
    year := toString currentYear
    paid_days := "30"
    lop_days := "0"
    home_collection_visit := "0" }

/-- Effects of one payslip generate submission. -/
structure SubmitEffects where
  generateRequests : List GeneratePayload
  refetches : Nat
  toasts : List Toast
  deriving DecidableEq

/-- Payslips handleSubmit: posts the built payload; on success closes the
dialog, resets the draft and triggers one refetch; on failure leaves the
state untouched and surfaces the detail or the generic fallback. -/
def payslipsHandleSubmit (s : PayslipsState) (currentYear : Int)
    (outcome : ApiOutcome) : PayslipsState × SubmitEffects :=
  let payload := buildGeneratePayload s.formData
  match outcome with
  | .ok _ =>
    ({ s with dialogOpen := false, formData := resetPayslipForm currentYear },
     { generateRequests := [payload]
       refetches := 1
       toasts := [.success "Payslip generated successfully"] })
  | .error d =>
    (s,
     { generateRequests := [payload]
       refetches := 0
       toasts := [.error (jsDetailOr d "Failed to generate payslip")] })

/-- Payload of the regenerate request built by handleSaveEdit: employee_id,
month and year copied from the existing payslip, and the edited day counts
run through parseInt. -/
structure EditGeneratePayload where
  employee_id : String
  month : Nat
  year : Int
  paid_days : Option Int
  lop_days : Option Int
  deriving DecidableEq

/-- Mutation request issued by the payslip save-edit flow. -/
inductive PayslipMutation where
  | deleteReq (id : String)
  | generateReq (p : EditGeneratePayload)
  deriving DecidableEq

/-- Effects of one payslip save-edit invocation. -/
structure SaveEditEffects where
  mutations : List PayslipMutation
  refetches : Nat
  toasts : List Toast
  deriving DecidableEq

/-- Regenerate payload for an edited payslip. -/
def editRegeneratePayload (p : PayslipRec) (ef : EditFormData) :
    EditGeneratePayload :=
  { employee_id := p.employee_id
    month := p.month
    year := p.year
    paid_days := parseIntJS ef.paid_days
    lop_days := parseIntJS ef.lop_days }

/-- Payslips handleSaveEdit: awaits DELETE of the existing payslip; only when
it succeeds, awaits the regenerate POST; on full success clears the editing
marker and triggers one refetch; any failure surfaces the detail or the
generic fallback and changes nothing. -/
def payslipsHandleSaveEdit (s : PayslipsState) (p : PayslipRec)
    (deleteOutcome genOutcome : ApiOutcome) : PayslipsState × SaveEditEffects :=
  match deleteOutcome with
  | .error d =>
    (s,
     { mutations := [.deleteReq p.id]
       refetches := 0
       toasts := [.error (jsDetailOr d "Failed to update payslip")] })
  | .ok _ =>
    match genOutcome with
    | .error d =>
      (s,
       { mutations :=
           [.deleteReq p.id, .generateReq (editRegeneratePayload p s.editFormData)]
         refetches := 0
         toasts := [.error (jsDetailOr d "Failed to update payslip")] })
    | .ok _ =>
      ({ s with editingPayslip := none },
       { mutations :=
           [.deleteReq p.id, .generateReq (editRegeneratePayload p s.editFormData)]
         refetches := 1
         toasts := [.success "Payslip updated successfully"] })

/-- Effects of one list fetch. -/
structure FetchEffects where
  toasts : List Toast
  deriving DecidableEq

/-- Payslips fetchData: Promise.all over the payslips and employees GETs;
both lists are replaced only when both succeed; any failure leaves both
lists untouched and toasts a fetch error; loading always ends false. -/
def payslipsFetchData (s : PayslipsState)
    (payslipsRes : Except Unit (List PayslipRec))
    (employeesRes : Except Unit (List EmployeeRec)) :
    PayslipsState × FetchEffects :=
  match payslipsRes, employeesRes with
  | .ok ps, .ok es =>
    ({ s with payslips := ps, employees := es, loading := false },
     { toasts := [] })
  | _, _ =>
    ({ s with loading := false }, { toasts := [.error "Failed to fetch data"] })

/-- Labels of the months array of the Payslips component, in order. -/
def monthsLabels : List String :=
  ["January", "February", "March", "April", "May", "June",
   "July", "August", "September", "October", "November", "December"]

/-- Filename template used by handleDownload. -/
def downloadFilename (employeeNo monthLabel year : String) : String :=
  "payslip_" ++ employeeNo ++ "_" ++ monthLabel ++ "_" ++ year ++ ".pdf"

/-- Effects of one payslip download invocation. -/
structure DownloadEffects where
  requestedId : String
  savedFilename : Option String
  toasts : List Toast
  consoleErrors : Nat
  deriving DecidableEq

/-- Payslips handleDownload: fetches the binary content of the given payslip
id and triggers a save under payslip_{employee_no}_{month label}_{year}.pdf,
looking the label up at index month - 1 of the months array; it invokes no
state setter, so the component state passes through unchanged.  On failure it
logs to the console and toasts the detail or the generic fallback. -/
def payslipsHandleDownload (s : PayslipsState) (payslipId employeeNo : String)
    (month : Nat) (year : Int) (outcome : ApiOutcome) :
    PayslipsState × DownloadEffects :=
  match outcome with
  | .ok _ =>
    (s,
     { requestedId := payslipId
       savedFilename := (monthsLabels.get? (month - 1)).map
         (fun label => downloadFilename employeeNo label (toString year))
       toasts := [.success "Payslip downloaded successfully"]
       consoleErrors := 0 })
  | .error d =>
    (s,
     { requestedId := payslipId
       savedFilename := none
       toasts := [.error (jsDetailOr d "Failed to download payslip")]
       consoleErrors := 1 })

/-- Salary-components draft of the Employees form.  The initial component
state has no home_collection_visit key while resetForm sets it to 0, so the
key is optional here (none models an absent key). -/
structure EmployeeSalaryDraft where
  basic : Rat
  house_rent_allowance : Rat
  transport_allowance : Rat
  fixed_allowance : Rat
  professional_tax : Rat
  home_collection_visit : Option Rat
  deriving DecidableEq

/-- Draft of the employee create/edit dialog. -/
structure EmployeeFormData where
  employee_no : String
  name : String
  designation : String
  date_of_joining : String
  work_location : String
  department : String
  bank_account_no : String
  salary_components : EmployeeSalaryDraft
  deriving DecidableEq

/-- Default employee draft as produced by resetForm (which also includes a
home_collection_visit key set to 0). -/
def resetEmployeeForm : EmployeeFormData :=
  { employee_no := ""
    name := ""
    designation := ""
    date_of_joining := ""
    work_location := ""
    department := ""
    bank_account_no := ""
    salary_components :=
      { basic := 0
        house_rent_allowance := 0
        transport_allowance := 0
        fixed_allowance := 0
        professional_tax := 0
        home_collection_visit := some 0 } }

/-- State of the Employees component. -/
structure EmployeesState where
  employees : List EmployeeRec
  loading : Bool
  dialogOpen : Bool
  editingEmployee : Option EmployeeRec
  deleteDialogOpen : Bool
  employeeToDelete : Option EmployeeRec
  formData : EmployeeFormData
  deriving DecidableEq

/-- Mutation request issued by the Employees form: POST for create, PUT for
update of the employee being edited. -/
inductive EmployeeRequest where
  | createReq (fd : EmployeeFormData)
  | updateReq (id : String) (fd : EmployeeFormData)
  deriving DecidableEq

/-- Effects of one employee form submission. -/
structure EmpSubmitEffects where
  requests : List EmployeeRequest
  refetches : Nat
  toasts : List Toast
  deriving DecidableEq

/-- Employees handleSubmit: PUT when an editing target is set, POST
otherwise; on success closes the dialog, resets the draft (clearing the
editing target) and triggers one refetch; on failure leaves the state
untouched and surfaces the detail or the generic fallback. -/
def employeesHandleSubmit (s : EmployeesState) (outcome : ApiOutcome) :
    EmployeesState × EmpSubmitEffects :=
  let req : EmployeeRequest :=
    match s.editingEmployee with
    | some emp => .updateReq emp.id s.formData
    | none => .createReq s.formData
  let successMsg : String :=
    match s.editingEmployee with
    | some _ => "Employee updated successfully"
    | none => "Employee created successfully"
  match outcome with
  | .ok _ =>
    ({ s with dialogOpen := false, formData := resetEmployeeForm,
              editingEmployee := none },
     { requests := [req], refetches := 1, toasts := [.success successMsg] })
  | .error d =>
    (s,
     { requests := [req]
       refetches := 0
       toasts := [.error (jsDetailOr d "Operation failed")] })

/-- Employees fetchEmployees: one GET; success replaces the list, failure
toasts an error and leaves the list untouched; loading always ends false. -/
def employeesFetchEmployees (s : EmployeesState)
    (res : Except Unit (List EmployeeRec)) : EmployeesState × FetchEffects :=
  match res with
  | .ok es => ({ s with employees := es, loading := false }, { toasts := [] })
  | .error _ =>
    ({ s with loading := false },
     { toasts := [.error "Failed to fetch employees"] })

/-- Value stored by the salary-component change handlers shared by the
Employees and Promotions forms: parseFloat(value) || 0. -/
def salaryChangeValue (value : String) : Rat :=
  jsNumOrZero (parseFloatJS value)

/-- Promotion record as fetched from the backend. -/
structure PromotionRec where
  id : String
  employee_name : String
  old_designation : String
  new_designation : String
  old_salary : Rat
  new_salary : Rat
  promotion_date : String
  deriving DecidableEq

/-- Draft of the promotion create dialog; submitted verbatim as the POST
promotions payload. -/
structure PromotionFormData where
  employee_id : String
  new_designation : String
  promotion_date : String
  new_salary_components : SalaryComponents
  deriving DecidableEq

/-- Default promotion draft as produced by resetForm. -/
def resetPromotionForm : PromotionFormData :=
  { employee_id := ""
    new_designation := ""
    promotion_date := ""
    new_salary_components :=
      { basic := 0
        house_rent_allowance := 0
        transport_allowance := 0
        fixed_allowance := 0
        professional_tax := 0 } }

/-- State of the Promotions component. -/
structure PromotionsState where
  promotions : List PromotionRec
  employees : List EmployeeRec
  loading : Bool
  dialogOpen : Bool
  formData : PromotionFormData
  deriving DecidableEq

/-- Effects of one promotion form submission. -/
structure PromoSubmitEffects where
  requests : List PromotionFormData
  refetches : Nat
  toasts : List Toast
  deriving DecidableEq

/-- Promotions handleSubmit: posts the draft verbatim; on success closes the
dialog, resets the draft and triggers one refetch; on failure leaves the
state untouched and surfaces the detail or the generic fallback. -/
def promotionsHandleSubmit (s : PromotionsState) (outcome : ApiOutcome) :
    PromotionsState × PromoSubmitEffects :=
  match outcome with
  | .ok _ =>
    ({ s with dialogOpen := false, formData := resetPromotionForm },
     { requests := [s.formData]
       refetches := 1
       toasts := [.success "Promotion created successfully"] })
  | .error d =>
    (s,
     { requests := [s.formData]
       refetches := 0
       toasts := [.error (jsDetailOr d "Failed to create promotion")] })

/-- Promotions fetchData: Promise.all over the promotions and employees GETs;
both lists are replaced only when both succeed; any failure leaves both lists
untouched and toasts a fetch error; loading always ends false. -/
def promotionsFetchData (s : PromotionsState)
    (promotionsRes : Except Unit (List PromotionRec))
    (employeesRes : Except Unit (List EmployeeRec)) :
    PromotionsState × FetchEffects :=
  match promotionsRes, employeesRes with
  | .ok ps, .ok es =>
    ({ s with promotions := ps, employees := es, loading := false },
     { toasts := [] })
  | _, _ =>
    ({ s with loading := false }, { toasts := [.error "Failed to fetch data"] })

/-- Promotions handleEmployeeChange: looks the selected id up in the fetched
employees list; when found, sets employee_id and pre-fills new_designation
and new_salary_components from that employee; when not found, the draft is
returned unchanged (no state setter is invoked). -/
def handleEmployeeChange (employees : List EmployeeRec) (employeeId : String)
    (fd : PromotionFormData) : PromotionFormData :=
  match employees.find? (fun e => e.id == employeeId) with
  | some employee =>
    { fd with employee_id := employeeId
              new_designation := employee.designation
              new_salary_components := employee.salary_components }
  | none => fd

/-- Draft of the Settings credential-change form. -/
structure SettingsFormData where
  current_password : String
  new_username : String
  new_password : String
  confirm_password : String
  deriving DecidableEq

/-- Payload of the PUT admin/credentials request.  The optional keys model
the source expressions new_username || undefined and
new_password || undefined: undefined-valued keys are omitted by the request
serializer, so none means the key is absent from the wire payload. -/
structure CredentialsPayload where
  current_password : String
  new_username : Option String
  new_password : Option String
  deriving DecidableEq

/-- Empty settings draft, the initial state and the post-success reset. -/
def emptySettingsForm : SettingsFormData :=
  { current_password := ""
    new_username := ""
    new_password := ""
    confirm_password := "" }

/-- Builds the credentials payload exactly as Settings handleSubmit does. -/
def buildCredentialsPayload (fd : SettingsFormData) : CredentialsPayload :=
  { current_password := fd.current_password
    new_username := jsStrOrUndefined fd.new_username
    new_password := jsStrOrUndefined fd.new_password }

/-- Result of one Settings form submission: requests issued, toasts shown,
the resulting draft and loading flag, and the username written to durable
storage when the change included one. -/
structure SettingsResult where
  requests : List CredentialsPayload
  toasts : List Toast
  formData : SettingsFormData
  loading : Bool
  storedUsername : Option String
  deriving DecidableEq

/-- Settings handleSubmit: when new_password and confirm_password differ it
toasts a mismatch error and returns before any network call or state change;
otherwise it PUTs the built payload; on success it updates the stored
username when one was entered and resets the form; on failure it surfaces
the detail or the generic fallback; loading ends false on every path that
made a request. -/
def settingsHandleSubmit (fd : SettingsFormData) (loading0 : Bool)
    (outcome : ApiOutcome) : SettingsResult :=
  if fd.new_password ≠ fd.confirm_password then
    { requests := []
      toasts := [.error "New password and confirm password do not match"]
      formData := fd
      loading := loading0
      storedUsername := none }
  else
    match outcome with
    | .ok _ =>
      { requests := [buildCredentialsPayload fd]
        toasts := [.success "Admin credentials updated successfully"]
        formData := emptySettingsForm
        loading := false
        storedUsername :=
          if fd.new_username ≠ "" then some fd.new_username else none }
    | .error d =>
      { requests := [buildCredentialsPayload fd]
        toasts := [.error (jsDetailOr d "Failed to update credentials")]
        formData := fd
        loading := false
        storedUsername := none }

/-- Dashboard statistics aggregate as fetched from the backend. -/
structure DashboardStats where
  total_active_employees : Rat
  total_monthly_payroll : Rat
  total_payslips_generated : Rat
  deriving DecidableEq

/-- State of the Dashboard component. -/
structure DashboardState where
  stats : DashboardStats
  loading : Bool
  deriving DecidableEq

/-- Effects of one dashboard stats fetch: toasts shown and console error
lines written. -/
structure DashFetchEffects where
  toasts : List Toast
  consoleErrors : Nat
  deriving DecidableEq

/-- Dashboard fetchStats: one GET; success replaces the stats; failure only
writes a console error line, shows no toast, and leaves the stats untouched;
loading always ends false. -/
def dashboardFetchStats (s : DashboardState)
    (res : Except Unit DashboardStats) : DashboardState × DashFetchEffects :=
  match res with
  | .ok st => ({ stats := st, loading := false }, { toasts := [], consoleErrors := 0 })
  | .error _ =>
    ({ s with loading := false }, { toasts := [], consoleErrors := 1 })

/-- Durable client-side storage slots the application uses. -/
structure Storage where
  token : Option String
  username : Option String
  deriving DecidableEq

/-- Session-relevant state of the App component together with the durable
storage it writes. -/
structure SessionState where
  storage : Storage
  isAuthenticated : Bool
  deriving DecidableEq

/-- App handleLogin: persists token and username and flips the authenticated
flag to true. -/
def handleLogin (_s : SessionState) (token username : String) : SessionState :=
  { storage := { token := some token, username := some username }
    isAuthenticated := true }

/-- App handleLogout: removes both stored values and flips the authenticated
flag to false. -/
def handleLogout (_s : SessionState) : SessionState :=
  { storage := { token := none, username := none }
    isAuthenticated := false }

/-- Authenticated flag computed by the App startup effect: true exactly when
the stored token is truthy (present and not the empty string). -/
def startupIsAuthenticated (st : Storage) : Bool :=
  match st.token with
  | none => false
  | some t => !(t == "")

/-- Paths the router declares. -/
inductive AppPath where
  | loginPath
  | rootPath
  | dashboardPath
  | employeesPath
  | promotionsPath
  | payslipsPath
  | settingsPath
  deriving DecidableEq

/-- Net result of resolving a path: a redirect, the login page, or a layout
page rendering the given view. -/
inductive RouteResult where
  | redirect (target : AppPath)
  | loginPage
  | layoutPage (view : AppPath)
  deriving DecidableEq

/-- Route resolution of the App component: the login path renders the login
page unless a session exists, in which case it redirects to the dashboard;
every path under the authenticated section redirects to the login path when
no session exists; the index route under the layout redirects to the
dashboard. -/
def resolveRoute (isAuth : Bool) (p : AppPath) : RouteResult :=
  match p with
  | .loginPath => if isAuth then .redirect .dashboardPath else .loginPage
  | .rootPath => if isAuth then .redirect .dashboardPath else .redirect .loginPath
  | other => if isAuth then .layoutPage other else .redirect .loginPath

/-- Whether a path lies under the authenticated section of the route table. -/
def underAuthSection : AppPath → Bool
  | .loginPath => false
  | _ => true

/-- When parseFloat yields NaN there is no digit anywhere in the literal
prefix, so parseInt yields NaN as well. -/
theorem parseIntJS_eq_none_of_parseFloatJS_eq_none (s : String)
    (h : parseFloatJS s = none) : parseIntJS s = none := by
  unfold parseFloatJS at h
  split at h
  · rename_i hc
    simp only [Bool.and_eq_true] at hc
    unfold parseIntJS
    simp [hc.1]
  · simp at h

/-- English month name for a month number, following the spec wording, for
comparison against the months array of the source. -/
def englishMonthName : Nat → String
  | 1 => "January"
  | 2 => "February"
  | 3 => "March"
  | 4 => "April"
  | 5 => "May"
  | 6 => "June"
  | 7 => "July"
  | 8 => "August"
  | 9 => "September"
  | 10 => "October"
  | 11 => "November"
  | 12 => "December"
  | _ => ""

/-- Concrete payslip draft exercising the C2 coercion claim: the paid_days
field has been cleared to the empty string. -/
def c2Draft : PayslipFormData :=
  { employee_id := "emp-1"
    month := "1"
    year := "2024"
    paid_days := ""
    lop_days := "31"
    home_collection_visit := "" }

/-- C1: saving a payslip edit issues exactly one DELETE for the existing
payslip id; only when that delete succeeded does exactly one generate POST
follow, carrying the same employee_id, month and year as the existing
payslip and the newly entered paid_days and lop_days; no other mutation
request is issued. -/
theorem C1_save_edit_mutation_trace :
    (∀ (s : PayslipsState) (p : PayslipRec) (d : Option String)
       (g : ApiOutcome),
      (payslipsHandleSaveEdit s p (.error d) g).2.mutations =
        [.deleteReq p.id]) ∧
    (∀ (s : PayslipsState) (p : PayslipRec) (g : ApiOutcome),
      (payslipsHandleSaveEdit s p (.ok ()) g).2.mutations =
        [.deleteReq p.id,
         .generateReq
           { employee_id := p.employee_id
             month := p.month
             year := p.year
             paid_days := parseIntJS s.editFormData.paid_days
             lop_days := parseIntJS s.editFormData.lop_days }]) := by
  constructor
  · intro s p d g
    rfl
  · intro s p g
    cases g <;> rfl

/-- C2 counterexample: submitting the payslip generate form with an empty
paid_days draft does not coerce the field to 0 in the outgoing payload; the
field is parseInt of the empty string, which is NaN (none), not 0. -/
theorem C2_counterexample :
    c2Draft.paid_days = "" ∧
    (buildGeneratePayload c2Draft).paid_days ≠ some 0 ∧
    (buildGeneratePayload c2Draft).paid_days = none := by
  refine ⟨rfl, ?_, ?_⟩ <;> decide

/-- C2 amended: fields parsed with parseFloat(...) || 0 — the salary
components of the Employees and Promotions forms and the payslip forms
home_collection_visit — coerce empty or non-numeric input to 0 before it is
sent, but the day-count fields paid_days and lop_days of the payslip
generate and edit forms (and their month and year) are parsed with a bare
parseInt, so empty or non-numeric input is sent as NaN, not 0. -/
theorem C2_amended_numeric_coercion :
    (∀ v : String, v = "" ∨ parseFloatJS v = none → salaryChangeValue v = 0) ∧
    (∀ fd : PayslipFormData,
      fd.home_collection_visit = "" ∨ parseFloatJS fd.home_collection_visit = none →
      (buildGeneratePayload fd).home_collection_visit = 0) ∧
    (∀ fd : PayslipFormData,
      fd.paid_days = "" ∨ parseFloatJS fd.paid_days = none →
      (buildGeneratePayload fd).paid_days = none) ∧
    (∀ fd : PayslipFormData,
      fd.lop_days = "" ∨ parseFloatJS fd.lop_days = none →
      (buildGeneratePayload fd).lop_days = none) ∧
    (∀ (p : PayslipRec) (ef : EditFormData),
      ef.paid_days = "" ∨ parseFloatJS ef.paid_days = none →
      (editRegeneratePayload p ef).paid_days = none) ∧
    (∀ (p : PayslipRec) (ef : EditFormData),
      ef.lop_days = "" ∨ parseFloatJS ef.lop_days = none →
      (editRegeneratePayload p ef).lop_days = none) := by
  have hfloat : ∀ v : String, v = "" ∨ parseFloatJS v = none →
      parseFloatJS v = none := by
    intro v h
    cases h with
    | inl he => rw [he]; decide
    | inr hn => exact hn
  have hint : ∀ v : String, v = "" ∨ parseFloatJS v = none →
      parseIntJS v = none := fun v h =>
    parseIntJS_eq_none_of_parseFloatJS_eq_none v (hfloat v h)
  refine ⟨?_, ?_, ?_, ?_, ?_, ?_⟩
  · intro v h
    simp [salaryChangeValue, hfloat v h, jsNumOrZero]
  · intro fd h
    simp [buildGeneratePayload, hfloat _ h, jsNumOrZero]
  · intro fd h
    simp [buildGeneratePayload, hint _ h]
  · intro fd h
    simp [buildGeneratePayload, hint _ h]
  · intro p ef h
    simp [editRegeneratePayload, hint _ h]
  · intro p ef h
    simp [editRegeneratePayload, hint _ h]

/-- Witness for the amended C2 theorem at concrete inputs. -/
theorem C2_amended_numeric_coercion_witness :
    salaryChangeValue "abc" = 0 ∧ (buildGeneratePayload c2Draft).paid_days = none ∧
    (buildGeneratePayload c2Draft).home_collection_visit = 0 :=
  ⟨C2_amended_numeric_coercion.1 "abc" (Or.inr (by decide)),
   C2_amended_numeric_coercion.2.2.1 c2Draft (Or.inl rfl),
   C2_amended_numeric_coercion.2.1 c2Draft (Or.inl rfl)⟩

/-- Concrete settings draft with no new credentials entered. -/
def c3Form : SettingsFormData :=
  { current_password := "secret"
    new_username := ""
    new_password := ""
    confirm_password := "" }

/-- C3: every outgoing credential-change payload carries current_password,
and carries the new_username and new_password keys exactly when the
corresponding draft values are non-empty; an empty draft value leads to the
key being omitted (none), never to an empty-string value. -/
theorem C3_credentials_payload_keys (fd : SettingsFormData) (loading0 : Bool)
    (outcome : ApiOutcome) (p : CredentialsPayload)
    (hp : p ∈ (settingsHandleSubmit fd loading0 outcome).requests) :
    p.current_password = fd.current_password ∧
    p.new_username =
      (if fd.new_username = "" then none else some fd.new_username) ∧
    p.new_password =
      (if fd.new_password = "" then none else some fd.new_password) := by
  unfold settingsHandleSubmit at hp
  split at hp
  · simp at hp
  · cases outcome with
    | ok _ =>
      simp only [List.mem_singleton] at hp
      subst hp
      exact ⟨rfl, rfl, rfl⟩
    | error d =>
      simp only [List.mem_singleton] at hp
      subst hp
      exact ⟨rfl, rfl, rfl⟩

/-- Witness for C3 at a concrete submission with both optional drafts empty:
both keys are omitted from the payload. -/
theorem C3_credentials_payload_keys_witness :
    (buildCredentialsPayload c3Form).current_password = c3Form.current_password ∧
    (buildCredentialsPayload c3Form).new_username =
      (if c3Form.new_username = "" then none else some c3Form.new_username) ∧
    (buildCredentialsPayload c3Form).new_password =
      (if c3Form.new_password = "" then none else some c3Form.new_password) :=
  C3_credentials_payload_keys c3Form false (.ok ())
    (buildCredentialsPayload c3Form) (by decide)

/-- C4: a credential-change submission whose new_password differs from its
confirm_password aborts locally: exactly one error toast, zero requests, the
draft and loading flag unchanged, and no stored-username update. -/
theorem C4_password_mismatch_aborts (fd : SettingsFormData) (loading0 : Bool)
    (outcome : ApiOutcome) (h : fd.new_password ≠ fd.confirm_password) :
    settingsHandleSubmit fd loading0 outcome =
      { requests := []
        toasts := [.error "New password and confirm password do not match"]
        formData := fd
        loading := loading0
        storedUsername := none } := by
  unfold settingsHandleSubmit
  simp [h]

/-- Witness for C4 at the concrete mismatching drafts abc and xyz. -/
theorem C4_password_mismatch_aborts_witness :
    settingsHandleSubmit
        { current_password := "cp", new_username := "",
          new_password := "abc", confirm_password := "xyz" } false (.ok ()) =
      { requests := []
        toasts := [.error "New password and confirm password do not match"]
        formData :=
          { current_password := "cp", new_username := "",
            new_password := "abc", confirm_password := "xyz" }
        loading := false
        storedUsername := none } :=
  C4_password_mismatch_aborts _ _ _ (by decide)

/-- C5: each create form (payslip generate, employee create, promotion
create) issues exactly one creation request; on success it triggers exactly
one refetch, closes the dialog and resets the draft to its defaults; on
failure it triggers no refetch, leaves the dialog and draft untouched and
surfaces the server detail, or the generic fallback when the detail is
absent. -/
theorem C5_create_submit_contract :
    (∀ (s : PayslipsState) (y : Int),
      payslipsHandleSubmit s y (.ok ()) =
        ({ s with dialogOpen := false, formData := resetPayslipForm y },
         { generateRequests := [buildGeneratePayload s.formData]
           refetches := 1
           toasts := [.success "Payslip generated successfully"] })) ∧
    (∀ (s : PayslipsState) (y : Int) (d : Option String),
      payslipsHandleSubmit s y (.error d) =
        (s,
         { generateRequests := [buildGeneratePayload s.formData]
           refetches := 0
           toasts := [.error (jsDetailOr d "Failed to generate payslip")] })) ∧
    (∀ (es : List EmployeeRec) (l dOpen ddOpen : Bool)
       (etd : Option EmployeeRec) (fd : EmployeeFormData),
      employeesHandleSubmit ⟨es, l, dOpen, none, ddOpen, etd, fd⟩ (.ok ()) =
        (⟨es, l, false, none, ddOpen, etd, resetEmployeeForm⟩,
         { requests := [.createReq fd]
           refetches := 1
           toasts := [.success "Employee created successfully"] })) ∧
    (∀ (es : List EmployeeRec) (l dOpen ddOpen : Bool)
       (etd : Option EmployeeRec) (fd : EmployeeFormData) (d : Option String),
      employeesHandleSubmit ⟨es, l, dOpen, none, ddOpen, etd, fd⟩ (.error d) =
        (⟨es, l, dOpen, none, ddOpen, etd, fd⟩,
         { requests := [.createReq fd]
           refetches := 0
           toasts := [.error (jsDetailOr d "Operation failed")] })) ∧
    (∀ s : PromotionsState,
      promotionsHandleSubmit s (.ok ()) =
        ({ s with dialogOpen := false, formData := resetPromotionForm },
         { requests := [s.formData]
           refetches := 1
           toasts := [.success "Promotion created successfully"] })) ∧
    (∀ (s : PromotionsState) (d : Option String),
      promotionsHandleSubmit s (.error d) =
        (s,
         { requests := [s.formData]
           refetches := 0
           toasts := [.error (jsDetailOr d "Failed to create promotion")] })) := by
  refine ⟨?_, ?_, ?_, ?_, ?_, ?_⟩
  · intro s y
    rfl
  · intro s y d
    rfl
  · intro es l dOpen ddOpen etd fd
    rfl
  · intro es l dOpen ddOpen etd fd d
    rfl
  · intro s
    rfl
  · intro s d
    rfl

/-- Concrete dashboard state with previously loaded stats, used to exercise
the failure path of the stats fetch. -/
def c6DashState : DashboardState :=
  { stats :=
      { total_active_employees := 3
        total_monthly_payroll := 100
        total_payslips_generated := 5 }
    loading := true }

/-- C6 counterexample: the Dashboard view belongs to the list-view load
pattern, yet its stats fetch failure shows no error notification at all —
the failure path emits an empty toast list (it only writes a console line),
while items stay at their previous value and loading ends false. -/
theorem C6_counterexample :
    (dashboardFetchStats c6DashState (.error ())).2.toasts = [] ∧
    (dashboardFetchStats c6DashState (.error ())).2.consoleErrors = 1 ∧
    (dashboardFetchStats c6DashState (.error ())).1 =
      { stats := c6DashState.stats, loading := false } := by
  refine ⟨rfl, rfl, rfl⟩

/-- C6 amended: for the Payslips, Promotions and Employees list views the
claim holds — any fetch failure toasts an error, sets loading false and
leaves items at their previous value, never partially updated, and full
success replaces items wholesale — while the Dashboard view keeps its items
and clears loading on failure but shows no user-facing notification, only a
console error line. -/
theorem C6_amended_load_contract :
    (∀ (s : PayslipsState) (ps : List PayslipRec) (es : List EmployeeRec),
      payslipsFetchData s (.ok ps) (.ok es) =
        ({ s with payslips := ps, employees := es, loading := false },
         { toasts := [] })) ∧
    (∀ (s : PayslipsState) (e : Unit) (r2 : Except Unit (List EmployeeRec)),
      payslipsFetchData s (.error e) r2 =
        ({ s with loading := false },
         { toasts := [.error "Failed to fetch data"] })) ∧
    (∀ (s : PayslipsState) (ps : List PayslipRec) (e : Unit),
      payslipsFetchData s (.ok ps) (.error e) =
        ({ s with loading := false },
         { toasts := [.error "Failed to fetch data"] })) ∧
    (∀ (s : PromotionsState) (ps : List PromotionRec) (es : List EmployeeRec),
      promotionsFetchData s (.ok ps) (.ok es) =
        ({ s with promotions := ps, employees := es, loading := false },
         { toasts := [] })) ∧
    (∀ (s : PromotionsState) (e : Unit) (r2 : Except Unit (List EmployeeRec)),
      promotionsFetchData s (.error e) r2 =
        ({ s with loading := false },
         { toasts := [.error "Failed to fetch data"] })) ∧
    (∀ (s : PromotionsState) (ps : List PromotionRec) (e : Unit),
      promotionsFetchData s (.ok ps) (.error e) =
        ({ s with loading := false },
         { toasts := [.error "Failed to fetch data"] })) ∧
    (∀ (s : EmployeesState) (es : List EmployeeRec),
      employeesFetchEmployees s (.ok es) =
        ({ s with employees := es, loading := false }, { toasts := [] })) ∧
    (∀ (s : EmployeesState) (e : Unit),
      employeesFetchEmployees s (.error e) =
        ({ s with loading := false },
         { toasts := [.error "Failed to fetch employees"] })) ∧
    (∀ (s : DashboardState) (st : DashboardStats),
      dashboardFetchStats s (.ok st) =
        ({ stats := st, loading := false }, { toasts := [], consoleErrors := 0 })) ∧
    (∀ (s : DashboardState) (e : Unit),
      dashboardFetchStats s (.error e) =
        ({ s with loading := false }, { toasts := [], consoleErrors := 1 })) := by
  refine ⟨?_, ?_, ?_, ?_, ?_, ?_, ?_, ?_, ?_, ?_⟩
  · intro s ps es
    rfl
  · intro s e r2
    cases r2 <;> rfl
  · intro s ps e
    rfl
  · intro s ps es
    rfl
  · intro s e r2
    cases r2 <;> rfl
  · intro s ps e
    rfl
  · intro s es
    rfl
  · intro s e
    rfl
  · intro s st
    rfl
  · intro s e
    rfl

/-- C7: logging in persists token and username and flips the authenticated
flag to true; logging out removes both and flips it to false; after either
operation the flag agrees with token presence; and the startup computation
yields true exactly when a token is present in durable storage (for the
tokens the app stores — JS truthiness makes an empty-string token count as
absent, so that degenerate value is excluded). -/
theorem C7_session_invariant :
    (∀ (s : SessionState) (t u : String),
      handleLogin s t u =
        { storage := { token := some t, username := some u }
          isAuthenticated := true }) ∧
    (∀ s : SessionState,
      handleLogout s =
        { storage := { token := none, username := none }
          isAuthenticated := false }) ∧
    (∀ (s : SessionState) (t u : String),
      (handleLogin s t u).isAuthenticated =
        (handleLogin s t u).storage.token.isSome) ∧
    (∀ s : SessionState,
      (handleLogout s).isAuthenticated =
        (handleLogout s).storage.token.isSome) ∧
    (∀ st : Storage, st.token ≠ some "" →
      startupIsAuthenticated st = st.token.isSome) := by
  refine ⟨fun s t u => rfl, fun s => rfl, fun s t u => rfl, fun s => rfl, ?_⟩
  intro st h
  obtain ⟨tok, un⟩ := st
  cases tok with
  | none => rfl
  | some t =>
    have ht : ¬t = "" := by
      intro he
      exact h (by simp [he])
    simp [startupIsAuthenticated, ht]

/-- Witness for C7 at a concrete stored session. -/
theorem C7_session_invariant_witness :
    startupIsAuthenticated { token := some "tok", username := some "admin" } =
      (Storage.mk (some "tok") (some "admin")).token.isSome :=
  C7_session_invariant.2.2.2.2 _ (by decide)

/-- C8: with no session, every path under the authenticated section of the
route table resolves to a redirect to the login path; with a session, the
login path resolves to a redirect to the dashboard, the default landing
path. -/
theorem C8_route_gating :
    (∀ p : AppPath, underAuthSection p = true →
      resolveRoute false p = .redirect .loginPath) ∧
    resolveRoute true .loginPath = .redirect .dashboardPath := by
  constructor
  · intro p hp
    cases p <;> simp_all [underAuthSection, resolveRoute]
  · rfl

/-- Witness for C8 at the concrete payslips path. -/
theorem C8_route_gating_witness :
    underAuthSection .payslipsPath = true ∧
    resolveRoute false .payslipsPath = .redirect .loginPath :=
  ⟨by decide, C8_route_gating.1 .payslipsPath (by decide)⟩

/-- C9: for a month between 1 and 12, downloading a payslip requests the
binary content of exactly that payslip id, saves it under
payslip_{employee_no}_{english month name}_{year}.pdf, and leaves the whole
component state — payslips, employees, dialog, drafts, loading and editing
flags — unchanged, whatever the outcome. -/
theorem C9_download_filename_and_frame (s : PayslipsState)
    (pid eno : String) (month : Nat) (year : Int) (outcome : ApiOutcome)
    (h1 : 1 ≤ month) (h2 : month ≤ 12) :
    (payslipsHandleDownload s pid eno month year outcome).1 = s ∧
    (payslipsHandleDownload s pid eno month year outcome).2.requestedId = pid ∧
    (payslipsHandleDownload s pid eno month year (.ok ())).2.savedFilename =
      some (downloadFilename eno (englishMonthName month) (toString year)) := by
  refine ⟨?_, ?_, ?_⟩
  · cases outcome <;> rfl
  · cases outcome <;> rfl
  · interval_cases month <;> rfl

/-- Concrete Payslips state for the download witness. -/
def c9State : PayslipsState :=
  { payslips := []
    employees := []
    loading := false
    dialogOpen := false
    editingPayslip := none
    editFormData := { paid_days := "30", lop_days := "0" }
    formData := resetPayslipForm 2024 }

/-- Witness for C9 at a concrete March 2024 download. -/
theorem C9_download_filename_and_frame_witness :
    (payslipsHandleDownload c9State "p1" "E001" 3 2024 (.ok ())).1 = c9State ∧
    (payslipsHandleDownload c9State "p1" "E001" 3 2024 (.ok ())).2.requestedId = "p1" ∧
    (payslipsHandleDownload c9State "p1" "E001" 3 2024 (.ok ())).2.savedFilename =
      some (downloadFilename "E001" (englishMonthName 3) (toString (2024 : Int))) :=
  C9_download_filename_and_frame c9State "p1" "E001" 3 2024 (.ok ())
    (by decide) (by decide)

/-- C10: selecting an employee id in the promotion form that matches no
employee in the fetched list leaves the whole draft unchanged; only when a
matching employee exists are employee_id set and new_designation and
new_salary_components pre-filled from that employee. -/
theorem C10_employee_change_frame (employees : List EmployeeRec)
    (employeeId : String) (fd : PromotionFormData) :
    (employees.find? (fun e => e.id == employeeId) = none →
      handleEmployeeChange employees employeeId fd = fd) ∧
    (∀ emp : EmployeeRec,
      employees.find? (fun e => e.id == employeeId) = some emp →
      handleEmployeeChange employees employeeId fd =
        { fd with employee_id := employeeId
                  new_designation := emp.designation
                  new_salary_components := emp.salary_components }) := by
  constructor
  · intro h
    unfold handleEmployeeChange
    rw [h]
  · intro emp h
    unfold handleEmployeeChange
    rw [h]

/-- Concrete employee record for the C10 witness. -/
def c10Emp : EmployeeRec :=
  { id := "e1"
    employee_no := "E001"
    name := "Asha"
    designation := "Analyst"
    department := "Lab"
    work_location := "Pune"
    date_of_joining := "2020-01-01"
    bank_account_no := "123"
    salary_components :=
      { basic := 100
        house_rent_allowance := 50
        transport_allowance := 20
        fixed_allowance := 10
        professional_tax := 2 } }

/-- Witness for C10: a missing id leaves the draft unchanged, a matching id
pre-fills it. -/
theorem C10_employee_change_frame_witness :
    handleEmployeeChange [c10Emp] "missing" resetPromotionForm =
      resetPromotionForm ∧
    handleEmployeeChange [c10Emp] "e1" resetPromotionForm =
      { resetPromotionForm with
          employee_id := "e1"
          new_designation := c10Emp.designation
          new_salary_components := c10Emp.salary_components } :=
  ⟨(C10_employee_change_frame [c10Emp] "missing" resetPromotionForm).1
      (by decide),
   (C10_employee_change_frame [c10Emp] "e1" resetPromotionForm).2 c10Emp
      (by decide)⟩

end Payroll
